import Mathlib

/-!
Shallow embedding of the `facilitate` ECS attach tool.

The repository holds two near-identical implementations of one linear
pipeline: `src/ecs.py` (single inline command function, embedded below in
namespace `Old`) and `src/facilitate/ecs.py` (the same pipeline split into
helper functions, embedded in namespace `Fac`).

The pipeline, given a cluster/service/container name:
  1. lists running task ARNs (`list_tasks`), exiting with status 1 when none;
  2. describes the tasks, keeps those with a container named exactly
     `container`, and projects each to its `containerInstanceArn`;
  3. describes the container instances and projects each to `ec2InstanceId`;
  4. describes the EC2 instances, flattens the reservation grouping and
     projects each instance to its `PublicIpAddress` dict entry;
  5. prompts the operator to choose one IP;
  6. asks for confirmation; on "no" it prints an abort notice and the
     process terminates with exit code 0;
  7. on "yes" it builds one ssh command string and returns the exit code of
     `subprocess.call` on it.

External effects are modelled explicitly: the four AWS responses are inputs
(`ApiResponses`), the two interactive answers are inputs (`OperatorIn`), the
exit code of the spawned ssh subprocess is an input (`remoteCode`), and a run
yields the ordered list of pipeline stages that executed, the lines echoed
with `click.echo` (styling stripped), and a final `Outcome`.  A Python dict
access `instance["PublicIpAddress"]` on a possibly missing key is modelled as
an `Option` lookup, so the address stage returns `Option (List String)`:
`none` is the uncaught `KeyError` (which terminates the Python process with
a traceback and exit status 1).
-/

/-- One `{"name": ...}` entry of a task's `containers` list. -/
structure ContainerRec where
  name : String
  deriving DecidableEq, Repr

/-- One task record of a `describe_tasks` response. -/
structure TaskRec where
  containers : List ContainerRec
  containerInstanceArn : String
  deriving DecidableEq, Repr

/-- One record of a `describe_container_instances` response. -/
structure ContainerInstanceRec where
  ec2InstanceId : String
  deriving DecidableEq, Repr

/-- One instance record of a `describe_instances` response; the
`PublicIpAddress` key may be absent, modelled as `Option`. -/
structure Ec2Instance where
  PublicIpAddress : Option String
  deriving DecidableEq, Repr

/-- One reservation group of a `describe_instances` response. -/
structure Reservation where
  Instances : List Ec2Instance
  deriving DecidableEq, Repr

/-- The four upstream AWS responses a run consumes, in pipeline order:
`list_tasks` → `taskArns`, `describe_tasks` → `tasks`,
`describe_container_instances` → `containerInstances`,
`describe_instances` → `reservations`. -/
structure ApiResponses where
  taskArns : List String
  tasks : List TaskRec
  containerInstances : List ContainerInstanceRec
  reservations : List Reservation
  deriving DecidableEq, Repr

/-- The CLI arguments of the `exec` subcommand. -/
structure Config where
  cluster : String
  service : String
  container : String
  user : String
  identity_file : String
  command : List String
  deriving DecidableEq, Repr

/-- The operator's two interactive answers: the instance IP picked at the
list prompt and the yes/no answer of the confirmation prompt. -/
structure OperatorIn where
  target_instance_ip : String
  should_exec : Bool
  deriving DecidableEq, Repr

/-- The seven pipeline stages, for recording which ones a run executed. -/
inductive Stage where
  | taskLocator
  | placement
  | hostId
  | address
  | selector
  | confirmGate
  | remoteExec
  deriving DecidableEq, Repr

/-- How a run ends: a `sys.exit` (or click's exit after a plain return),
an uncaught `KeyError` from a missing dict key, or the remote ssh
invocation returning the subprocess's exit code. -/
inductive Outcome where
  | exit (code : Int)
  | keyError
  | remote (cmd : String) (code : Int)
  deriving DecidableEq, Repr

/-- The observable result of one run: stages executed in order, lines
echoed with `click.echo` (styling stripped), final outcome. -/
structure RunResult where
  stages : List Stage
  messages : List String
  outcome : Outcome
  deriving DecidableEq, Repr

/-- The process exit status an `Outcome` produces.  `sys.exit` raises
`SystemExit`, which click does not catch, so its code passes through; an
uncaught exception (the `KeyError`) prints a traceback and exits 1.  On the
remote path the command callback returns the code `subprocess.call`
returned, but both files invoke the command through click in standalone
mode, whose `BaseCommand.main` discards the callback's return value and
terminates via `ctx.exit()`: the process exits 0 regardless of the remote
command's exit code. -/
def finalExit : Outcome → Int
  | Outcome.exit c => c
  | Outcome.keyError => 1
  | Outcome.remote _ _ => 0

/-- The `click.echo(f"  - {x}")` lines printed for each element of a stage
output. -/
def echoList (xs : List String) : List String :=
  xs.map (fun x => "  - " ++ x)

/-- All instance records of a `describe_instances` response, flattened over
the reservation grouping: `chain(*[r["Instances"] for r in reservations])`. -/
def instancesOf (reservations : List Reservation) : List Ec2Instance :=
  (reservations.map (fun r => r.Instances)).flatten

/-- The comprehension `[instance["PublicIpAddress"] for instance in instances]`:
each lookup may raise `KeyError`, so the whole comprehension yields `none`
as soon as some record lacks the key. -/
def collectIps : List Ec2Instance → Option (List String)
  | [] => some []
  | i :: rest => do
    let ip ← i.PublicIpAddress
    let ips ← collectIps rest
    pure (ip :: ips)

namespace Fac

/-- `_get_container_task_arns` (src/facilitate/ecs.py:49): the `taskArns` of
the `list_tasks` response; the emptiness check and `sys.exit(1)` live in
`run` below, mirroring the early exit of the helper. -/
def _get_container_task_arns (taskArns : List String) : List String :=
  taskArns

/-- `_get_container_instance_arns` (src/facilitate/ecs.py:70): keep the tasks
whose container list has an entry named `container` (Python `==` on
strings), project to `containerInstanceArn`. -/
def _get_container_instance_arns (tasks : List TaskRec) (container : String) :
    List String :=
  let tasks_with_target_container :=
    tasks.filter (fun t => t.containers.any (fun c => c.name == container))
  tasks_with_target_container.map (fun task => task.containerInstanceArn)

/-- `_get_container_instance_ids` (src/facilitate/ecs.py:90): project every
record of the `describe_container_instances` response to `ec2InstanceId`. -/
def _get_container_instance_ids
    (containerInstances : List ContainerInstanceRec) : List String :=
  containerInstances.map (fun ci => ci.ec2InstanceId)

/-- `_get_container_instance_ips` (src/facilitate/ecs.py:108): flatten the
reservations of the `describe_instances` response and read
`instance["PublicIpAddress"]` of every instance record; `none` is the
`KeyError` raised when some record lacks the key. -/
def _get_container_instance_ips (reservations : List Reservation) :
    Option (List String) :=
  let instances := (reservations.map (fun r => r.Instances)).flatten
  collectIps instances

/-- The ssh command string built by `_exec` (src/facilitate/ecs.py:166),
chunk for chunk the f-string of the source (`\x27` is the single-quote
character). -/
def sshCommand (identity_file user instance_ip container command : String) :
    String :=
  "ssh -i " ++ identity_file ++ " " ++ user ++ "@" ++ instance_ip ++
    " -t \x27bash -c \"docker exec -it $(docker ps -q -f name=\x27" ++
    "-" ++ container ++ "-" ++
    "\x27 | head -n 1) " ++ command ++ "\"\x27"

/-- `_exec` (src/facilitate/ecs.py:164): run the ssh command through
`subprocess.call` and return its exit code; the code the subprocess returns
is the input `subprocessCode`. -/
def _exec (identity_file user instance_ip container command : String)
    (subprocessCode : Int) : Outcome :=
  Outcome.remote (sshCommand identity_file user instance_ip container command)
    subprocessCode

/-- The `exec` command of src/facilitate/ecs.py:35 as one run function:
stage by stage in source order, with the `sys.exit(1)` of
`_get_container_task_arns` on an empty task list, the possible `KeyError`
of the address stage, and the `sys.exit(0)` of `_ask_should_exec` on a
declined confirmation.  The Target Selector's answer is the input
`op.target_instance_ip`; the interactive list prompt can only ever return
an element of its non-empty candidate list, so only runs whose chosen IP is
drawn from the computed address list correspond to program executions —
every concrete run below respects this. -/
def run (cfg : Config) (api : ApiResponses) (op : OperatorIn)
    (remoteCode : Int) : RunResult :=
  let normalized_command := String.intercalate " " cfg.command
  let container_task_arns := _get_container_task_arns api.taskArns
  if container_task_arns.length == 0 then
    { stages := [Stage.taskLocator],
      messages := ["\nCould not find target tasks. Exiting!"],
      outcome := Outcome.exit 1 }
  else
    let msgs1 := echoList container_task_arns
    let container_instance_arns :=
      _get_container_instance_arns api.tasks cfg.container
    let msgs2 := echoList container_instance_arns
    let container_instance_ids :=
      _get_container_instance_ids api.containerInstances
    let msgs3 := echoList container_instance_ids
    match _get_container_instance_ips api.reservations with
    | none =>
        { stages := [Stage.taskLocator, Stage.placement, Stage.hostId,
            Stage.address],
          messages := msgs1 ++ msgs2 ++ msgs3,
          outcome := Outcome.keyError }
    | some container_instance_ips =>
        let msgs4 := echoList container_instance_ips
        let target_instance_ip := op.target_instance_ip
        if op.should_exec then
          { stages := [Stage.taskLocator, Stage.placement, Stage.hostId,
              Stage.address, Stage.selector, Stage.confirmGate,
              Stage.remoteExec],
            messages := msgs1 ++ msgs2 ++ msgs3 ++ msgs4,
            outcome := _exec cfg.identity_file cfg.user target_instance_ip
              cfg.container normalized_command remoteCode }
        else
          { stages := [Stage.taskLocator, Stage.placement, Stage.hostId,
              Stage.address, Stage.selector, Stage.confirmGate],
            messages := msgs1 ++ msgs2 ++ msgs3 ++ msgs4 ++
              ["\nOperation aborted. Exiting!"],
            outcome := Outcome.exit 0 }

/-- The ordered outputs of the four resolution stages (task ARNs, container
instance ARNs, instance IDs, instance IPs) as a pure function of the
target container name and the upstream responses. -/
def resolutionChain (container : String) (api : ApiResponses) :
    List String × List String × List String × Option (List String) :=
  (_get_container_task_arns api.taskArns,
   _get_container_instance_arns api.tasks container,
   _get_container_instance_ids api.containerInstances,
   _get_container_instance_ips api.reservations)

end Fac

namespace Old

/-- The ssh command f-string of src/ecs.py:149, identical character for
character to the one of src/facilitate/ecs.py. -/
def sshCommand (identity_file user instance_ip container command : String) :
    String :=
  "ssh -i " ++ identity_file ++ " " ++ user ++ "@" ++ instance_ip ++
    " -t \x27bash -c \"docker exec -it $(docker ps -q -f name=\x27" ++
    "-" ++ container ++ "-" ++
    "\x27 | head -n 1) " ++ command ++ "\"\x27"

/-- The `exec` command of src/ecs.py:27, transcribed from its single inline
body: the same stages written as inline comprehensions rather than helper
calls.  On a declined confirmation the function returns `None` and click's
standalone mode exits the process with status 0, modelled as
`Outcome.exit 0`.  On the confirmed path this file, unlike
src/facilitate/ecs.py, executes a bare `click.echo()` (src/ecs.py:146)
before the ssh call, printing one empty line — recorded as a final `""`
message. -/
def run (cfg : Config) (api : ApiResponses) (op : OperatorIn)
    (remoteCode : Int) : RunResult :=
  let normalized_command := String.intercalate " " cfg.command
  let target_task_arns := api.taskArns
  if target_task_arns.length == 0 then
    { stages := [Stage.taskLocator],
      messages := ["\nCould not find target tasks. Exiting!"],
      outcome := Outcome.exit 1 }
  else
    let msgs1 := echoList target_task_arns
    let tasks_with_target_container :=
      api.tasks.filter (fun t => t.containers.any (fun c => c.name == cfg.container))
    let container_instance_arns :=
      tasks_with_target_container.map (fun task => task.containerInstanceArn)
    let msgs2 := echoList container_instance_arns
    let container_instance_ids :=
      api.containerInstances.map (fun ci => ci.ec2InstanceId)
    let msgs3 := echoList container_instance_ids
    let instances := (api.reservations.map (fun r => r.Instances)).flatten
    match collectIps instances with
    | none =>
        { stages := [Stage.taskLocator, Stage.placement, Stage.hostId,
            Stage.address],
          messages := msgs1 ++ msgs2 ++ msgs3,
          outcome := Outcome.keyError }
    | some container_instance_ips =>
        let msgs4 := echoList container_instance_ips
        let target_instance_ip := op.target_instance_ip
        if op.should_exec then
          { stages := [Stage.taskLocator, Stage.placement, Stage.hostId,
              Stage.address, Stage.selector, Stage.confirmGate,
              Stage.remoteExec],
            messages := msgs1 ++ msgs2 ++ msgs3 ++ msgs4 ++ [""],
            outcome := Outcome.remote
              (sshCommand cfg.identity_file cfg.user target_instance_ip
                cfg.container normalized_command) remoteCode }
        else
          { stages := [Stage.taskLocator, Stage.placement, Stage.hostId,
              Stage.address, Stage.selector, Stage.confirmGate],
            messages := msgs1 ++ msgs2 ++ msgs3 ++ msgs4 ++
              ["\nOperation aborted. Exiting!"],
            outcome := Outcome.exit 0 }

end Old

/-! ### Concrete fixtures used by counterexamples and witnesses -/

/-- A typical CLI invocation: container `api`, command `echo hi`. -/
def sampleCfg : Config :=
  { cluster := "mycluster", service := "myservice", container := "api",
    user := "ec2-user", identity_file := "~/.ssh/id_rsa",
    command := ["echo", "hi"] }

/-- A well-behaved set of responses: one task running container `api` on
instance `ci-1`, resolved to host `h-1` with address `10.0.0.5`. -/
def sampleApi : ApiResponses :=
  { taskArns := ["t1"],
    tasks := [{ containers := [{ name := "api" }],
                containerInstanceArn := "ci-1" }],
    containerInstances := [{ ec2InstanceId := "h-1" }],
    reservations := [{ Instances := [{ PublicIpAddress := some "10.0.0.5" }] }] }

/-- Responses whose task listing is empty. -/
def sampleApiEmpty : ApiResponses :=
  { taskArns := [], tasks := [], containerInstances := [], reservations := [] }

/-- Responses where the single running task has only a container named
`web`, so the placement stage yields zero candidates for container `api`,
while the later responses still carry one host record and one addressed
instance record: the address list offered to the selector is non-empty. -/
def mismatchApi : ApiResponses :=
  { taskArns := ["t1"],
    tasks := [{ containers := [{ name := "web" }],
                containerInstanceArn := "ci-1" }],
    containerInstances := [{ ec2InstanceId := "h-1" }],
    reservations := [{ Instances := [{ PublicIpAddress := some "10.0.0.5" }] }] }

/-- Responses where `describe_instances` returns two instance records for
the single queried host: the address list grows past the host list. -/
def growApi : ApiResponses :=
  { taskArns := ["t1"],
    tasks := [{ containers := [{ name := "api" }],
                containerInstanceArn := "ci-1" }],
    containerInstances := [{ ec2InstanceId := "h-1" }],
    reservations := [{ Instances := [{ PublicIpAddress := some "10.0.0.5" },
                                     { PublicIpAddress := some "10.0.0.6" }] }] }

/-- A `describe_instances` response whose single instance record lacks the
`PublicIpAddress` key. -/
def missingIpReservations : List Reservation :=
  [{ Instances := [{ PublicIpAddress := none }] }]

/-- Operator confirming execution on `10.0.0.5`. -/
def opYes : OperatorIn := { target_instance_ip := "10.0.0.5", should_exec := true }

/-- Operator declining at the confirmation gate. -/
def opNo : OperatorIn := { target_instance_ip := "10.0.0.5", should_exec := false }

/-! ### Helper lemmas -/

theorem length_beq_zero_false {α : Type} {l : List α} (h : l ≠ []) :
    (l.length == 0) = false := by
  rcases l with _ | ⟨a, t⟩
  · exact absurd rfl h
  · rfl

theorem collectIps_eq (l : List Ec2Instance) :
    collectIps l =
      if l.all (fun i => i.PublicIpAddress.isSome)
      then some (l.filterMap (fun i => i.PublicIpAddress))
      else none := by
  induction l with
  | nil => simp [collectIps]
  | cons i t ih =>
    cases h : i.PublicIpAddress with
    | none => simp [collectIps, h]
    | some ip =>
      by_cases ht : t.all (fun i => i.PublicIpAddress.isSome)
      · simp [collectIps, h, ih, ht]
      · simp [collectIps, h, ih, ht]

theorem arns_length_le (tasks : List TaskRec) (container : String) :
    (Fac._get_container_instance_arns tasks container).length ≤
      tasks.length := by
  unfold Fac._get_container_instance_arns
  simp only [List.length_map]
  exact List.length_filter_le _ _

theorem collectIps_length (l : List Ec2Instance) (ips : List String)
    (h : collectIps l = some ips) : ips.length = l.length := by
  induction l generalizing ips with
  | nil =>
    simp [collectIps] at h
    simp [← h]
  | cons i t ih =>
    cases hip : i.PublicIpAddress with
    | none => simp [collectIps, hip] at h
    | some ip =>
      cases ht : collectIps t with
      | none => simp [collectIps, hip, ht] at h
      | some tips =>
        simp [collectIps, hip, ht] at h
        simp [← h, ih tips ht]

/-! ### Claim theorems -/

/-- Claim C1, counterexample: on a `describe_instances` response whose single
host record lacks the `PublicIpAddress` key, the Address Resolver does not
return the record-dropping list the claim describes (here `some []`): the
lookup fails (`none`, a `KeyError` in the source), so the claim that such
records are excluded without crashing is false. -/
theorem address_resolver_drop_counterexample :
    Fac._get_container_instance_ips missingIpReservations = none ∧
    (instancesOf missingIpReservations).filterMap
      (fun i => i.PublicIpAddress) = [] ∧
    ¬ Fac._get_container_instance_ips missingIpReservations =
        some ((instancesOf missingIpReservations).filterMap
          (fun i => i.PublicIpAddress)) := by
  decide

/-- Claim C1, amended: the Address Resolver succeeds exactly when every
flattened host record carries a `PublicIpAddress`; in that case it returns
exactly those addresses in order (no empty value is ever inserted), and when
some record lacks the field the stage fails with a lookup error (`KeyError`)
instead of dropping the record. -/
theorem address_resolver_amended (reservations : List Reservation) :
    Fac._get_container_instance_ips reservations =
      if (instancesOf reservations).all (fun i => i.PublicIpAddress.isSome)
      then some ((instancesOf reservations).filterMap
        (fun i => i.PublicIpAddress))
      else none :=
  collectIps_eq (instancesOf reservations)

/-- Claim C2, counterexample: a run in which the placement stage outputs
zero candidates (the only task runs container `web`, not the target `api`)
does not stop there.  The later responses still yield one host and the
non-empty address list `["10.0.0.5"]`, the operator's choice is drawn from
that list, and all seven stages execute down to the remote execution — so
an empty intermediate stage output neither halts the pipeline nor produces
the failure exit.  Every interaction here is one the program can perform:
the selector's candidate list is non-empty and the chosen IP is a member
of it. -/
theorem empty_stage_proceeds_counterexample :
    Fac._get_container_instance_arns mismatchApi.tasks sampleCfg.container
      = [] ∧
    Fac._get_container_instance_ips mismatchApi.reservations =
      some ["10.0.0.5"] ∧
    opYes.target_instance_ip ∈ (["10.0.0.5"] : List String) ∧
    (Fac.run sampleCfg mismatchApi opYes 0).stages =
      [Stage.taskLocator, Stage.placement, Stage.hostId, Stage.address,
       Stage.selector, Stage.confirmGate, Stage.remoteExec] ∧
    (Fac.run sampleCfg mismatchApi opYes 0).outcome ≠ Outcome.exit 1 := by
  decide

/-- Claim C2, amended: only the Task Locator's empty output terminates the
pipeline (exit status 1, no later stage invoked); when the task list is
non-empty the run always proceeds through placement, host and address
resolution regardless of whether intermediate outputs are empty. -/
theorem empty_result_amended (cfg : Config) (api : ApiResponses)
    (op : OperatorIn) (remoteCode : Int) :
    (api.taskArns = [] →
      Fac.run cfg api op remoteCode =
        { stages := [Stage.taskLocator],
          messages := ["\nCould not find target tasks. Exiting!"],
          outcome := Outcome.exit 1 }) ∧
    (api.taskArns ≠ [] →
      (Fac.run cfg api op remoteCode).stages.take 4 =
        [Stage.taskLocator, Stage.placement, Stage.hostId, Stage.address]) := by
  constructor
  · intro h
    simp [Fac.run, Fac._get_container_task_arns, h]
  · intro h
    cases hips : Fac._get_container_instance_ips api.reservations with
    | none =>
      simp [Fac.run, Fac._get_container_task_arns, length_beq_zero_false h,
        hips]
    | some ips =>
      cases hop : op.should_exec <;>
        simp [Fac.run, Fac._get_container_task_arns, length_beq_zero_false h,
          hips, hop]

/-- Claim C2 witness: at concrete inputs, an empty task listing stops the run
at the Task Locator with exit 1, and a non-empty one reaches all four
resolution stages. -/
theorem empty_result_amended_witness :
    Fac.run sampleCfg sampleApiEmpty opYes 0 =
      { stages := [Stage.taskLocator],
        messages := ["\nCould not find target tasks. Exiting!"],
        outcome := Outcome.exit 1 } ∧
    (Fac.run sampleCfg sampleApi opYes 0).stages.take 4 =
      [Stage.taskLocator, Stage.placement, Stage.hostId, Stage.address] :=
  ⟨(empty_result_amended sampleCfg sampleApiEmpty opYes 0).1 rfl,
   (empty_result_amended sampleCfg sampleApi opYes 0).2 (by decide)⟩

/-- Claim C3, code bug: on a confirmed run whose remote ssh command exits 7,
the command callback does return 7 (the `return subprocess.call(...)` of
the source, recorded in the remote outcome), but click's standalone mode —
through which both files invoke the command — discards the callback's
return value and terminates via `ctx.exit()`: the tool's final process
exit status is the constant 0, not the remote command's exit code, against
both the claim and the code's own visible intent in returning the code. -/
theorem remote_exit_code_swallowed :
    (Fac.run sampleCfg sampleApi opYes 7).outcome =
      Outcome.remote
        (Fac.sshCommand "~/.ssh/id_rsa" "ec2-user" "10.0.0.5" "api"
          "echo hi") 7 ∧
    finalExit (Fac.run sampleCfg sampleApi opYes 7).outcome = 0 ∧
    ¬ finalExit (Fac.run sampleCfg sampleApi opYes 7).outcome = 7 := by
  decide

/-- Claim C4: the Placement Resolver returns exactly the
`containerInstanceArn`s of the tasks whose container list has an entry whose
name equals the target container name under propositional (exact,
case-sensitive) string equality — an order-preserving map over the filtered
task list with no deduplication — and its output is never longer than the
task list. -/
theorem placement_resolver_exact (tasks : List TaskRec) (container : String) :
    Fac._get_container_instance_arns tasks container =
      (tasks.filter
        (fun t => decide (∃ c ∈ t.containers, c.name = container))).map
        (fun t => t.containerInstanceArn) ∧
    (Fac._get_container_instance_arns tasks container).length ≤
      tasks.length := by
  have hpred : (fun t : TaskRec =>
      t.containers.any (fun c => c.name == container)) =
      (fun t : TaskRec => decide (∃ c ∈ t.containers, c.name = container)) := by
    funext t
    rw [Bool.eq_iff_iff]
    simp [List.any_eq_true]
  constructor
  · unfold Fac._get_container_instance_arns
    rw [hpred]
  · exact arns_length_le tasks container

/-- Claim C5: when the run reaches the Confirmation Gate and the operator
answers no, the Remote Executor stage is never invoked, the process ends
with exit code 0, and the abort notice is printed. -/
theorem decline_short_circuits (cfg : Config) (api : ApiResponses)
    (op : OperatorIn) (remoteCode : Int) (ips : List String)
    (hne : api.taskArns ≠ [])
    (hips : Fac._get_container_instance_ips api.reservations = some ips)
    (hno : op.should_exec = false) :
    Stage.remoteExec ∉ (Fac.run cfg api op remoteCode).stages ∧
    (Fac.run cfg api op remoteCode).outcome = Outcome.exit 0 ∧
    "\nOperation aborted. Exiting!" ∈
      (Fac.run cfg api op remoteCode).messages := by
  simp [Fac.run, Fac._get_container_task_arns, length_beq_zero_false hne,
    hips, hno]

/-- Claim C5 witness: on the sample run with a declining operator, the
remote stage is skipped and the outcome is exit 0 with the abort notice. -/
theorem decline_short_circuits_witness :
    (Fac.run sampleCfg sampleApi opNo 7).outcome = Outcome.exit 0 :=
  (decline_short_circuits sampleCfg sampleApi opNo 7 ["10.0.0.5"]
    (by decide) (by decide) rfl).2.1

/-- Claim C6: an empty running-task listing halts the run at the Task
Locator: the failure notice is the only output, the exit status is 1, and no
later stage (placement, host, address, selector, confirmation, remote
execution) appears in the executed stages. -/
theorem task_locator_empty_halts (cfg : Config) (api : ApiResponses)
    (op : OperatorIn) (remoteCode : Int) (h : api.taskArns = []) :
    Fac.run cfg api op remoteCode =
      { stages := [Stage.taskLocator],
        messages := ["\nCould not find target tasks. Exiting!"],
        outcome := Outcome.exit 1 } := by
  simp [Fac.run, Fac._get_container_task_arns, h]

/-- Claim C6 witness: the empty-listing run at concrete inputs. -/
theorem task_locator_empty_halts_witness :
    Fac.run sampleCfg sampleApiEmpty opNo 7 =
      { stages := [Stage.taskLocator],
        messages := ["\nCould not find target tasks. Exiting!"],
        outcome := Outcome.exit 1 } :=
  task_locator_empty_halts sampleCfg sampleApiEmpty opNo 7 rfl

/-- Claim C7: for every container name and command string, the constructed
remote-shell invocation contains the dash-wrapped discovery filter
`-<container>-` immediately inside the `docker ps -q -f name=...` filter,
followed by `| head -n 1` (first matching container), and ends with the
space-joined command string unmodified, followed only by the two closing
quote characters of the invocation. -/
theorem ssh_command_discovery_pattern
    (identity_file user instance_ip container command : String) :
    ∃ pre, Fac.sshCommand identity_file user instance_ip container command =
      pre ++ "-" ++ container ++ "-" ++ "\x27 | head -n 1) " ++ command ++
        "\"\x27" := by
  refine ⟨"ssh -i " ++ identity_file ++ " " ++ user ++ "@" ++ instance_ip ++
    " -t \x27bash -c \"docker exec -it $(docker ps -q -f name=\x27", ?_⟩
  simp [Fac.sshCommand, String.append_assoc]

/-- Claim C8, counterexample: a complete run shape in which the inventory
API returns two instance records for the single queried compute host: the
address stage's output (two addresses) is strictly longer than the
compute-host stage's output (one identifier), so stage cardinality grows. -/
theorem stage_cardinality_counterexample :
    Fac.resolutionChain "api" growApi =
      (["t1"], ["ci-1"], ["h-1"], some ["10.0.0.5", "10.0.0.6"]) ∧
    ¬ ((["10.0.0.5", "10.0.0.6"] : List String).length ≤
        (["h-1"] : List String).length) := by
  decide

/-- Claim C8, amended: each stage applies only filtering or element-wise
mapping to the records the corresponding API response returned, so whenever
each batch response holds at most one record per requested identifier (tasks
per task ARN, container-instance records per instance ARN, flattened
instance records per instance ID), the stage cardinalities are
non-increasing along the chain; the code itself does not enforce that bound
on the responses. -/
theorem stage_cardinality_amended (container : String) (api : ApiResponses)
    (h1 : api.tasks.length ≤ api.taskArns.length)
    (h2 : api.containerInstances.length ≤
      (Fac._get_container_instance_arns api.tasks container).length)
    (h3 : (instancesOf api.reservations).length ≤
      (Fac._get_container_instance_ids api.containerInstances).length) :
    (Fac._get_container_instance_arns api.tasks container).length ≤
      (Fac._get_container_task_arns api.taskArns).length ∧
    (Fac._get_container_instance_ids api.containerInstances).length ≤
      (Fac._get_container_instance_arns api.tasks container).length ∧
    ∀ ips, Fac._get_container_instance_ips api.reservations = some ips →
      ips.length ≤
        (Fac._get_container_instance_ids api.containerInstances).length := by
  refine ⟨?_, ?_, ?_⟩
  · calc (Fac._get_container_instance_arns api.tasks container).length
        ≤ api.tasks.length := arns_length_le api.tasks container
      _ ≤ api.taskArns.length := h1
  · calc (Fac._get_container_instance_ids api.containerInstances).length
        = api.containerInstances.length := by
          simp [Fac._get_container_instance_ids]
      _ ≤ _ := h2
  · intro ips hips
    have hlen : ips.length = (instancesOf api.reservations).length :=
      collectIps_length _ _ hips
    omega

/-- Claim C8 witness: on the well-behaved sample responses the compute-host
stage's output is no longer than the placement stage's output. -/
theorem stage_cardinality_amended_witness :
    (Fac._get_container_instance_ids sampleApi.containerInstances).length ≤
      (Fac._get_container_instance_arns sampleApi.tasks "api").length :=
  (stage_cardinality_amended "api" sampleApi (by decide) (by decide)
    (by decide)).2.1

/-- Claim C9: the four-stage resolution chain is a pure function of the
target container name and the upstream API responses; two runs given equal
responses produce equal ordered stage outputs (no hidden randomness and no
time-dependent ordering exists in the embedding). -/
theorem resolution_chain_deterministic (container : String)
    (api1 api2 : ApiResponses) (h : api1 = api2) :
    Fac.resolutionChain container api1 = Fac.resolutionChain container api2 := by
  rw [h]

/-- Claim C9 witness: the chain applied twice to the sample responses. -/
theorem resolution_chain_deterministic_witness :
    Fac.resolutionChain "api" sampleApi = Fac.resolutionChain "api" sampleApi :=
  resolution_chain_deterministic "api" sampleApi sampleApi rfl

/-- Claim C10: the two implementations are behaviourally equivalent on the
core pipeline: given the same CLI arguments, the same API responses, the
same operator answers and the same remote exit code, `src/ecs.py` and
`src/facilitate/ecs.py` execute the same stages in the same order, reach
the same outcome (hence the same ordered stage outputs) and build
character-for-character the same remote-shell command string.  Their
echoed lines agree exactly, except that on the confirmed path `src/ecs.py`
additionally prints one blank line (the bare `click.echo()` of
src/ecs.py:146) — the messages are equal, or equal followed by one `""`. -/
theorem implementations_equivalent (cfg : Config) (api : ApiResponses)
    (op : OperatorIn) (remoteCode : Int) :
    (Old.run cfg api op remoteCode).stages =
      (Fac.run cfg api op remoteCode).stages ∧
    (Old.run cfg api op remoteCode).outcome =
      (Fac.run cfg api op remoteCode).outcome ∧
    ((Old.run cfg api op remoteCode).messages =
        (Fac.run cfg api op remoteCode).messages ∨
      (Old.run cfg api op remoteCode).messages =
        (Fac.run cfg api op remoteCode).messages ++ [""]) ∧
    ∀ identity_file user instance_ip container command : String,
      Old.sshCommand identity_file user instance_ip container command =
        Fac.sshCommand identity_file user instance_ip container command := by
  refine ⟨?_, ?_, ?_, fun _ _ _ _ _ => rfl⟩ <;>
    (cases h : (api.taskArns.length == 0) with
     | true =>
       simp [Old.run, Fac.run, Fac._get_container_task_arns, h]
     | false =>
       cases hips : collectIps
           ((api.reservations.map (fun r => r.Instances)).flatten) with
       | none =>
         simp [Old.run, Fac.run, Fac._get_container_task_arns,
           Fac._get_container_instance_ips, Fac._get_container_instance_arns,
           Fac._get_container_instance_ids, h, hips]
       | some ips =>
         cases hop : op.should_exec <;>
           simp [Old.run, Fac.run, Fac._get_container_task_arns,
             Fac._get_container_instance_ips, Fac._get_container_instance_arns,
             Fac._get_container_instance_ids, Fac._exec, Old.sshCommand,
             Fac.sshCommand, h, hips, hop, List.append_assoc])
